import Mathlib

/-!
Shallow embedding of the checkout core of the `mcp-acp-checkout` repository.

The embedding follows the TypeScript source:
- `src/packages/mcp-acp-checkout/src/managers/payment.ts` holds both
  `PaymentManager` and `SessionManager`;
- the `CommerceTools` SDK class orchestrates them;
- `utils` provides `calculateSubtotal`.

Modelling conventions:
- JavaScript `Date` values become `Nat` timestamps; each operation receives
  the current time `now` explicitly (the source calls `new Date()`).
- Monetary amounts and quantities are JS numbers used only with `+`, `*`,
  `-` and comparisons here, so they become `Int`.
- The in-memory `Map<string, CheckoutSession>` becomes an association list
  with JS `Map` semantics (set replaces in place, delete removes the entry;
  keys are unique by construction).
- Thrown `Error`s become an explicit error type, one constructor per
  distinct `throw` site reachable in the modelled code.
- External Stripe calls and the `onPurchase` fulfillment hook are modelled
  as oracle parameters describing the collaborator's outcome; the local
  validations that surround those calls are embedded faithfully.
- Mutation of a session object that is shared between the local variable
  and the stored map entry becomes explicit state passing: every operation
  returns its result together with the updated session map.
-/

deriving instance DecidableEq for Except

/-- Catalog product (types/index.ts `Product`, the fields the core reads). -/
structure Product where
  id : String
  name : String
  price : Int
  currency : String
  deriving DecidableEq, Repr

/-- A cart entry (types/index.ts `CartItem`). -/
structure CartItem where
  productId : String
  quantity : Int
  price : Int
  currency : String
  name : String
  deriving DecidableEq, Repr

/-- Price aggregate (types/index.ts `Totals`). -/
structure Totals where
  subtotal : Int
  tax : Int
  shipping : Int
  discount : Int
  total : Int
  currency : String
  deriving DecidableEq, Repr

/-- Session lifecycle status (types/index.ts `SessionStatus`). -/
inductive SessionStatus where
  | pending
  | ready
  | processing
  | completed
  | failed
  | expired
  | cancelled
  deriving DecidableEq, Repr

/-- Buyer information (types/index.ts `BuyerInfo`; address/phone omitted,
the modelled code only reads `email` and stores the rest opaquely). -/
structure BuyerInfo where
  email : String
  name : Option String := none
  deriving DecidableEq, Repr

/-- Payment details attached to a session (types/index.ts `PaymentInfo`). -/
structure PaymentInfo where
  stripePaymentIntentId : Option String
  status : String
  deriving DecidableEq, Repr

/-- The central aggregate (types/index.ts `CheckoutSession`). -/
structure CheckoutSession where
  id : String
  status : SessionStatus
  items : List CartItem
  buyer : Option BuyerInfo
  totals : Totals
  payment : Option PaymentInfo
  createdAt : Nat
  expiresAt : Nat
  deriving DecidableEq, Repr

/-- Immutable order record (types/index.ts `Order`), with the nested
`payment` object flattened. -/
structure Order where
  id : String
  sessionId : String
  items : List CartItem
  buyer : BuyerInfo
  totals : Totals
  paymentIntentId : String
  paymentStatus : String
  paidAt : Nat
  status : String
  createdAt : Nat
  deriving DecidableEq, Repr

/-- Errors thrown by the modelled code, one constructor per `throw` site. -/
inductive CommerceError where
  /-- `'Session not found or expired'` -/
  | sessionNotFound
  /-- `'Product not found: …'` (SessionManager.addItem) -/
  | productNotFound (pid : String)
  /-- `'Quantity must be positive'` (SessionManager.addItem) -/
  | invalidQuantity
  /-- `'Item not in cart'` (SessionManager.updateQuantity) -/
  | itemNotInCart
  /-- `'Cannot checkout with empty cart'` / `'Cannot create payment link for empty cart'` -/
  | emptyCart
  /-- `'Buyer email is required'` -/
  | missingBuyerEmail
  /-- `'Buyer information required to create order'` (createOrderFromSession) -/
  | missingBuyer
  /-- `'Cannot create payment for empty cart'` (createPaymentIntent) -/
  | emptyCartPayment
  /-- `'Total must be greater than 0'` (createPaymentIntent) -/
  | nonPositiveTotal
  /-- `'Payment failed: <status>'` (completeCheckout on a non-succeeded intent) -/
  | paymentFailed (piStatus : String)
  /-- An error thrown by the Stripe client call itself -/
  | gatewayError
  /-- An error thrown by the `onPurchase` fulfillment callback -/
  | hookFailed
  deriving DecidableEq, Repr

/-! ### JS `Map` semantics over an association list -/

/-- `Map.get`: the value stored under `k`, if any. -/
def assocGet {α : Type} (m : List (String × α)) (k : String) : Option α :=
  match m with
  | [] => none
  | (a, b) :: rest => if a == k then some b else assocGet rest k

/-- `Map.set`: replace the entry for `k` in place, or append it. -/
def assocSet {α : Type} (m : List (String × α)) (k : String) (v : α) :
    List (String × α) :=
  match m with
  | [] => [(k, v)]
  | (a, b) :: rest => if a == k then (k, v) :: rest else (a, b) :: assocSet rest k v

/-- `Map.delete`: remove the entry for `k` (keys are unique, so removing
every match coincides with removing the single entry). -/
def assocDelete {α : Type} (m : List (String × α)) (k : String) :
    List (String × α) :=
  match m with
  | [] => []
  | (a, b) :: rest =>
    if a == k then assocDelete rest k else (a, b) :: assocDelete rest k

/-- The `SessionManager`'s `Map<string, CheckoutSession>` store. -/
abbrev SessionMap := List (String × CheckoutSession)

/-- The product catalog `Map` is built by `products.forEach(set)`, so a
later duplicate id overwrites an earlier one: lookup returns the last
matching product (utils give unique ids in practice). -/
def catalogLookup (products : List Product) (pid : String) : Option Product :=
  (products.filter (fun p => p.id == pid)).getLast?

/-! ### utils (src/utils/index.ts) -/

/-- `calculateSubtotal`: `items.reduce((sum, item) => sum + item.price * item.quantity, 0)`. -/
def calculateSubtotal (items : List CartItem) : Int :=
  items.foldl (fun sum item => sum + item.price * item.quantity) 0

/-! ### SessionManager (managers/session.ts) -/

/-- The body of `SessionManager.recalculateTotals`, as a function of the
item list: subtotal from `calculateSubtotal`, tax/shipping/discount
hard-coded to 0 for the MVP, total as their signed sum, currency from the
first item (or `'usd'` for an empty cart). -/
def computeTotals (items : List CartItem) : Totals :=
  let subtotal := calculateSubtotal items
  let tax : Int := 0
  let shipping : Int := 0
  let discount : Int := 0
  { subtotal := subtotal
    tax := tax
    shipping := shipping
    discount := discount
    total := subtotal + tax + shipping - discount
    currency := match items with
      | [] => "usd"
      | i :: _ => i.currency }

/-- `SessionManager.recalculateTotals(session)`: overwrite `session.totals`
with the recomputed aggregate. -/
def recalculateTotals (s : CheckoutSession) : CheckoutSession :=
  { s with totals := computeTotals s.items }

/-- `SessionManager.create()`: fresh `pending` session with empty cart and
zero totals; the generated random id arrives as the oracle `freshId`, and
`expiresAt = createdAt + TTL`. The new session is stored in the map. -/
def SessionManager.create (m : SessionMap) (now ttl : Nat) (freshId : String) :
    CheckoutSession × SessionMap :=
  let s : CheckoutSession :=
    { id := freshId
      status := .pending
      items := []
      buyer := none
      totals := { subtotal := 0, tax := 0, shipping := 0, discount := 0,
                  total := 0, currency := "usd" }
      payment := none
      createdAt := now
      expiresAt := now + ttl }
  (s, assocSet m freshId s)

/-- `SessionManager.get(sessionId)`: `null` for a missing id; for a stored
session, compare `new Date() > session.expiresAt` and on strict expiry
delete the entry and return `null`, otherwise return the session. -/
def SessionManager.get (m : SessionMap) (now : Nat) (sid : String) :
    Option CheckoutSession × SessionMap :=
  match assocGet m sid with
  | none => (none, m)
  | some s =>
    if s.expiresAt < now then (none, assocDelete m sid) else (some s, m)

/-- `session.items.find(it => it.productId === productId)` followed by
`existingItem.quantity += quantity`: bump the first matching entry. -/
def bumpFirstQuantity (items : List CartItem) (pid : String) (q : Int) :
    List CartItem :=
  match items with
  | [] => []
  | it :: rest =>
    if it.productId == pid then { it with quantity := it.quantity + q } :: rest
    else it :: bumpFirstQuantity rest pid q

/-- `item.quantity = quantity` on the first matching entry. -/
def setFirstQuantity (items : List CartItem) (pid : String) (q : Int) :
    List CartItem :=
  match items with
  | [] => []
  | it :: rest =>
    if it.productId == pid then { it with quantity := q } :: rest
    else it :: setFirstQuantity rest pid q

/-- `SessionManager.addItem(sessionId, productId, quantity)`. -/
def SessionManager.addItem (products : List Product) (m : SessionMap)
    (now : Nat) (sid pid : String) (quantity : Int) :
    Except CommerceError CheckoutSession × SessionMap :=
  match SessionManager.get m now sid with
  | (none, m1) => (.error .sessionNotFound, m1)
  | (some s, m1) =>
    match catalogLookup products pid with
    | none => (.error (.productNotFound pid), m1)
    | some product =>
      if quantity ≤ 0 then (.error .invalidQuantity, m1)
      else
        let items1 :=
          if s.items.any (fun it => it.productId == pid) then
            bumpFirstQuantity s.items pid quantity
          else
            s.items ++ [{ productId := product.id
                          quantity := quantity
                          price := product.price
                          currency := product.currency
                          name := product.name }]
        let s1 := recalculateTotals { s with items := items1 }
        let s2 :=
          if s1.status = .pending ∧ 0 < s1.items.length then
            { s1 with status := .ready }
          else s1
        (.ok s2, assocSet m1 sid s2)

/-- `SessionManager.removeItem(sessionId, productId)`. -/
def SessionManager.removeItem (m : SessionMap) (now : Nat) (sid pid : String) :
    Except CommerceError CheckoutSession × SessionMap :=
  match SessionManager.get m now sid with
  | (none, m1) => (.error .sessionNotFound, m1)
  | (some s, m1) =>
    let s1 := recalculateTotals
      { s with items := s.items.filter (fun it => ¬ (it.productId == pid)) }
    let s2 := if s1.items.length = 0 then { s1 with status := .pending } else s1
    (.ok s2, assocSet m1 sid s2)

/-- `SessionManager.updateQuantity(sessionId, productId, quantity)`:
quantity 0 delegates to `removeItem`; otherwise look the session and item
up and overwrite the quantity in place (no sign check in the source). -/
def SessionManager.updateQuantity (m : SessionMap) (now : Nat)
    (sid pid : String) (quantity : Int) :
    Except CommerceError CheckoutSession × SessionMap :=
  if quantity = 0 then SessionManager.removeItem m now sid pid
  else
    match SessionManager.get m now sid with
    | (none, m1) => (.error .sessionNotFound, m1)
    | (some s, m1) =>
      if s.items.any (fun it => it.productId == pid) then
        let s1 := recalculateTotals
          { s with items := setFirstQuantity s.items pid quantity }
        (.ok s1, assocSet m1 sid s1)
      else (.error .itemNotInCart, m1)

/-- `SessionManager.setBuyer(sessionId, buyer)`. -/
def SessionManager.setBuyer (m : SessionMap) (now : Nat) (sid : String)
    (buyer : BuyerInfo) :
    Except CommerceError CheckoutSession × SessionMap :=
  match SessionManager.get m now sid with
  | (none, m1) => (.error .sessionNotFound, m1)
  | (some s, m1) =>
    let s1 := recalculateTotals { s with buyer := some buyer }
    (.ok s1, assocSet m1 sid s1)

/-- `SessionManager.updateStatus(sessionId, status)` (no totals recompute). -/
def SessionManager.updateStatus (m : SessionMap) (now : Nat) (sid : String)
    (st : SessionStatus) :
    Except CommerceError CheckoutSession × SessionMap :=
  match SessionManager.get m now sid with
  | (none, m1) => (.error .sessionNotFound, m1)
  | (some s, m1) =>
    let s1 := { s with status := st }
    (.ok s1, assocSet m1 sid s1)

/-- `SessionManager.delete(sessionId)`. -/
def SessionManager.deleteSession (m : SessionMap) (sid : String) : SessionMap :=
  assocDelete m sid

/-- `SessionManager.cleanup()`: evict every session with
`now > session.expiresAt`. -/
def SessionManager.cleanup (m : SessionMap) (now : Nat) : SessionMap :=
  m.filter (fun p => ¬ (p.2.expiresAt < now))

/-! ### CommerceTools (src/index.ts) -/

/-- The configuration the modelled operations read: the product catalog and
the session TTL (`config.session?.ttl`, defaulted by `SessionManager`). -/
structure CommerceConfig where
  products : List Product
  ttl : Nat
  deriving Repr

/-- The mutable state `CommerceTools` owns: the `SessionManager`'s session
map and the SDK's in-memory `orders` map. -/
structure CommerceState where
  sessions : SessionMap
  orders : List (String × Order)
  deriving DecidableEq, Repr

/-- Outcome of `stripe.paymentIntents.confirm` inside
`processSharedPaymentToken`: either a PaymentIntent with some status, or
the Stripe client throwing. -/
inductive GatewayResult where
  | intent (piId : String) (piStatus : String)
  | thrown
  deriving DecidableEq, Repr

/-- `session.payment?.stripePaymentIntentId`, with JS falsiness: an absent
payment object, an absent id, or an empty-string id all read as falsy. -/
def paymentIntentRef (s : CheckoutSession) : String :=
  (s.payment.bind (fun p => p.stripePaymentIntentId)).getD ""

/-- `!session.buyer || !session.buyer.email` (an empty email is falsy). -/
def buyerEmailMissing (s : CheckoutSession) : Bool :=
  match s.buyer with
  | none => true
  | some b => b.email == ""

/-- `CommerceTools.addToCart(sessionId?, productId, quantity)`: a falsy
`sessionId` (absent or empty) first auto-creates a session via
`SessionManager.create` (its random id arrives as the oracle `freshId`),
then the add is delegated to `SessionManager.addItem`. -/
def CommerceTools.addToCart (cfg : CommerceConfig) (m : SessionMap) (now : Nat)
    (sessionId : Option String) (freshId : String) (pid : String) (q : Int) :
    Except CommerceError CheckoutSession × SessionMap :=
  if sessionId.getD "" = "" then
    let (ns, m1) := SessionManager.create m now cfg.ttl freshId
    SessionManager.addItem cfg.products m1 now ns.id pid q
  else
    SessionManager.addItem cfg.products m now (sessionId.getD "") pid q

/-- `CommerceTools.setBuyer(sessionId?, buyer)`: same auto-create behaviour
as `addToCart`, then delegates to `SessionManager.setBuyer`. -/
def CommerceTools.setBuyer (cfg : CommerceConfig) (m : SessionMap) (now : Nat)
    (sessionId : Option String) (freshId : String) (buyer : BuyerInfo) :
    Except CommerceError CheckoutSession × SessionMap :=
  if sessionId.getD "" = "" then
    let (ns, m1) := SessionManager.create m now cfg.ttl freshId
    SessionManager.setBuyer m1 now ns.id buyer
  else
    SessionManager.setBuyer m now (sessionId.getD "") buyer

/-- `CommerceTools.createPaymentLink(sessionId, …)`: look the session up,
reject an empty cart and a missing buyer email, then ask Stripe for a
hosted Checkout session (`PaymentManager.createCheckoutSession`, whose own
two validations are subsumed by the checks already made). The Stripe call
is an oracle: `stripeOk` tells whether it returned `(url, expiresAt, id)`
or threw. No session field is written by this strategy. -/
def CommerceTools.createPaymentLink (st : CommerceState) (now : Nat)
    (sid : String) (stripeOk : Bool) (url : String) (linkExpiresAt : Nat)
    (stripeSessionId : String) :
    Except CommerceError (String × Nat × String) × CommerceState :=
  match SessionManager.get st.sessions now sid with
  | (none, m1) => (.error .sessionNotFound, { st with sessions := m1 })
  | (some s, m1) =>
    if s.items.length = 0 then (.error .emptyCart, { st with sessions := m1 })
    else if buyerEmailMissing s then
      (.error .missingBuyerEmail, { st with sessions := m1 })
    else if stripeOk then
      (.ok (url, linkExpiresAt, stripeSessionId), { st with sessions := m1 })
    else (.error .gatewayError, { st with sessions := m1 })

/-- `CommerceTools.completeCheckout(sessionId, sharedPaymentToken)`.

After the three validations the session is moved to `processing`; inside
the `try` block `processSharedPaymentToken` runs (creating a PaymentIntent
first — with its empty-cart and non-positive-total checks — when the
session holds no intent reference), the confirmed intent must report
`succeeded`, the order is built by `PaymentManager.createOrderFromSession`
(its random id arrives as `orderId`), stored in `orders`, the session is
moved to `completed` and `onPurchase` is invoked (`hookOk` tells whether
the callback returned or threw). Any failure inside the `try` is caught,
the session is moved to `failed`, and the error is rethrown. -/
def CommerceTools.completeCheckout (st : CommerceState) (now : Nat)
    (sid : String) (gateway : GatewayResult) (orderId : String)
    (hookOk : Bool) :
    Except CommerceError Order × CommerceState :=
  match SessionManager.get st.sessions now sid with
  | (none, m1) => (.error .sessionNotFound, { st with sessions := m1 })
  | (some s, m1) =>
    if s.items.length = 0 then (.error .emptyCart, { st with sessions := m1 })
    else if buyerEmailMissing s then
      (.error .missingBuyerEmail, { st with sessions := m1 })
    else
      let (_, m2) := SessionManager.updateStatus m1 now sid .processing
      if paymentIntentRef s = "" ∧ s.items.length = 0 then
        let (_, m3) := SessionManager.updateStatus m2 now sid .failed
        (.error .emptyCartPayment, { st with sessions := m3 })
      else if paymentIntentRef s = "" ∧ s.totals.total ≤ 0 then
        let (_, m3) := SessionManager.updateStatus m2 now sid .failed
        (.error .nonPositiveTotal, { st with sessions := m3 })
      else
        match gateway with
        | .thrown =>
          let (_, m3) := SessionManager.updateStatus m2 now sid .failed
          (.error .gatewayError, { st with sessions := m3 })
        | .intent piId piStatus =>
          if piStatus ≠ "succeeded" then
            let (_, m3) := SessionManager.updateStatus m2 now sid .failed
            (.error (.paymentFailed piStatus), { st with sessions := m3 })
          else
            match s.buyer with
            | none =>
              -- `createOrderFromSession` rechecks the buyer; unreachable
              -- here because `buyerEmailMissing` already passed.
              let (_, m3) := SessionManager.updateStatus m2 now sid .failed
              (.error .missingBuyer, { st with sessions := m3 })
            | some buyer =>
              let order : Order :=
                { id := orderId
                  sessionId := s.id
                  items := s.items
                  buyer := buyer
                  totals := s.totals
                  paymentIntentId := piId
                  paymentStatus := "succeeded"
                  paidAt := now
                  status := "pending"
                  createdAt := now }
              let orders1 := assocSet st.orders order.id order
              let (_, m3) := SessionManager.updateStatus m2 now sid .completed
              if hookOk then (.ok order, { sessions := m3, orders := orders1 })
              else
                let (_, m4) := SessionManager.updateStatus m3 now sid .failed
                (.error .hookFailed, { sessions := m4, orders := orders1 })

/-- `CommerceTools.cancelCheckout(sessionId)`: look the session up; when it
carries a truthy `payment?.stripePaymentIntentId` the Stripe cancel call
runs first (oracle `cancelOk`; a throw propagates before any state
change); then the session status is set to `cancelled` unconditionally. -/
def CommerceTools.cancelCheckout (st : CommerceState) (now : Nat)
    (sid : String) (cancelOk : Bool) :
    Except CommerceError Unit × CommerceState :=
  match SessionManager.get st.sessions now sid with
  | (none, m1) => (.error .sessionNotFound, { st with sessions := m1 })
  | (some s, m1) =>
    if paymentIntentRef s ≠ "" ∧ ¬ cancelOk then
      (.error .gatewayError, { st with sessions := m1 })
    else
      let (_, m2) := SessionManager.updateStatus m1 now sid .cancelled
      (.ok (), { st with sessions := m2 })

/-! ### Operation sequences and the totals invariant -/

/-- One caller-facing cart/buyer mutation, for stating invariants over
arbitrary operation sequences. -/
inductive CartOp where
  | add (pid : String) (q : Int)
  | remove (pid : String)
  | update (pid : String) (q : Int)
  | buyer (b : BuyerInfo)
  deriving DecidableEq, Repr

/-- Dispatch one `CartOp` to the corresponding `SessionManager` method. -/
def applyOp (products : List Product) (m : SessionMap) (now : Nat)
    (sid : String) : CartOp → Except CommerceError CheckoutSession × SessionMap
  | .add pid q => SessionManager.addItem products m now sid pid q
  | .remove pid => SessionManager.removeItem m now sid pid
  | .update pid q => SessionManager.updateQuantity m now sid pid q
  | .buyer b => SessionManager.setBuyer m now sid b

/-- Run a sequence of operations, collecting every observation the caller
makes (the per-operation results) and the final store. -/
def runOps (products : List Product) (now : Nat) (sid : String) :
    List CartOp → SessionMap →
    List (Except CommerceError CheckoutSession) × SessionMap
  | [], m => ([], m)
  | op :: rest, m =>
    let (r, m1) := applyOp products m now sid op
    let (rs, m2) := runOps products now sid rest m1
    (r :: rs, m2)

/-- The totals consistency property of claim C1, read off the spec's
equations: subtotal is the sum of `price × quantity`, tax, shipping and
discount are zero, and the total is their signed sum. -/
def totalsConsistent (s : CheckoutSession) : Prop :=
  s.totals.subtotal = calculateSubtotal s.items ∧
  s.totals.tax = 0 ∧ s.totals.shipping = 0 ∧ s.totals.discount = 0 ∧
  s.totals.total = s.totals.subtotal + s.totals.tax + s.totals.shipping
    - s.totals.discount

instance (s : CheckoutSession) : Decidable (totalsConsistent s) := by
  unfold totalsConsistent; infer_instance

/-! ### Basic store lemmas -/

theorem assocGet_assocSet_self {α : Type} (m : List (String × α)) (k : String)
    (v : α) : assocGet (assocSet m k v) k = some v := by
  induction m with
  | nil => simp [assocSet, assocGet]
  | cons hd tl ih =>
    obtain ⟨a, b⟩ := hd
    by_cases h : (a == k) = true
    · simp [assocSet, assocGet, h]
    · simp [assocSet, assocGet, h, ih]

theorem assocGet_assocDelete_self {α : Type} (m : List (String × α))
    (k : String) : assocGet (assocDelete m k) k = none := by
  induction m with
  | nil => simp [assocDelete, assocGet]
  | cons hd tl ih =>
    obtain ⟨a, b⟩ := hd
    by_cases h : (a == k) = true
    · simp [assocDelete, assocGet, h, ih]
    · simp [assocDelete, assocGet, h, ih]

theorem assocSet_assocSet {α : Type} (m : List (String × α)) (k : String)
    (v w : α) : assocSet (assocSet m k v) k w = assocSet m k w := by
  induction m with
  | nil => simp [assocSet]
  | cons hd tl ih =>
    obtain ⟨a, b⟩ := hd
    by_cases h : (a == k) = true
    · simp [assocSet, h]
    · simp [assocSet, h, ih]

theorem SessionManager.get_live {m : SessionMap} {sid : String}
    {s : CheckoutSession} {now : Nat} (hfound : assocGet m sid = some s)
    (hlive : now ≤ s.expiresAt) :
    SessionManager.get m now sid = (some s, m) := by
  simp [SessionManager.get, hfound, Nat.not_lt.mpr hlive]

theorem SessionManager.get_expired {m : SessionMap} {sid : String}
    {s : CheckoutSession} {now : Nat} (hfound : assocGet m sid = some s)
    (hexp : s.expiresAt < now) :
    SessionManager.get m now sid = (none, assocDelete m sid) := by
  simp [SessionManager.get, hfound, hexp]

theorem SessionManager.get_absent {m : SessionMap} {sid : String} {now : Nat}
    (h : assocGet m sid = none) :
    SessionManager.get m now sid = (none, m) := by
  simp [SessionManager.get, h]

/-! ### Totals invariant lemmas -/

theorem recalculateTotals_consistent (s : CheckoutSession) :
    totalsConsistent (recalculateTotals s) := by
  simp [totalsConsistent, recalculateTotals, computeTotals]

theorem totalsConsistent_status (s : CheckoutSession) (st : SessionStatus)
    (h : totalsConsistent s) : totalsConsistent { s with status := st } := h

theorem applyOp_ok_consistent (products : List Product) (m : SessionMap)
    (now : Nat) (sid : String) (op : CartOp) (s2 : CheckoutSession)
    (h : (applyOp products m now sid op).1 = .ok s2) :
    totalsConsistent s2 := by
  cases op <;>
    simp only [applyOp, SessionManager.addItem, SessionManager.removeItem,
      SessionManager.updateQuantity, SessionManager.setBuyer] at h <;>
    repeat' split at h
  all_goals
    first
    | exact Except.noConfusion h
    | (have hx := Except.ok.inj h
       subst hx
       exact totalsConsistent_status _ _ (recalculateTotals_consistent _))

/-- C1. For every sequence of addItem / removeItem / updateQuantity /
setBuyer operations, each session a caller observes has
`subtotal = Σ price × quantity` over the current items,
`tax = shipping = discount = 0`, and
`total = subtotal + tax + shipping − discount`. -/
theorem totals_invariant_all_ops (products : List Product) (now : Nat)
    (sid : String) (ops : List CartOp) (m : SessionMap)
    (r : Except CommerceError CheckoutSession) (s2 : CheckoutSession)
    (hr : r ∈ (runOps products now sid ops m).1) (hok : r = .ok s2) :
    totalsConsistent s2 := by
  induction ops generalizing m with
  | nil => simp [runOps] at hr
  | cons op rest ih =>
    rcases happ : applyOp products m now sid op with ⟨r1, m1⟩
    simp only [runOps, happ] at hr
    rcases List.mem_cons.mp hr with h1 | h2
    · subst h1
      exact applyOp_ok_consistent products m now sid op s2
        (by rw [happ, hok])
    · exact ih m1 h2

/-- Witness for C1 at a concrete run: removing the only item of a live
session yields an observation whose totals are consistent. -/
theorem totals_invariant_all_ops_witness :
    Except.ok
        { id := "cs_w", status := SessionStatus.pending, items := [],
          buyer := none,
          totals := { subtotal := 0, tax := 0, shipping := 0, discount := 0,
                      total := 0, currency := "usd" },
          payment := none, createdAt := 0, expiresAt := 100 } ∈
      (runOps [{ id := "p1", name := "P1", price := 1999, currency := "usd" }]
        1 "cs_w" [CartOp.remove "p1"]
        [("cs_w",
          { id := "cs_w", status := SessionStatus.ready,
            items := [{ productId := "p1", quantity := 2, price := 1999,
                        currency := "usd", name := "P1" }],
            buyer := none,
            totals := { subtotal := 3998, tax := 0, shipping := 0,
                        discount := 0, total := 3998, currency := "usd" },
            payment := none, createdAt := 0, expiresAt := 100 })]).1 ∧
    totalsConsistent
      { id := "cs_w", status := SessionStatus.pending, items := [],
        buyer := none,
        totals := { subtotal := 0, tax := 0, shipping := 0, discount := 0,
                    total := 0, currency := "usd" },
        payment := none, createdAt := 0, expiresAt := 100 } :=
  ⟨by decide,
   totals_invariant_all_ops
     [{ id := "p1", name := "P1", price := 1999, currency := "usd" }]
     1 "cs_w" [CartOp.remove "p1"]
     [("cs_w",
       { id := "cs_w", status := SessionStatus.ready,
         items := [{ productId := "p1", quantity := 2, price := 1999,
                     currency := "usd", name := "P1" }],
         buyer := none,
         totals := { subtotal := 3998, tax := 0, shipping := 0,
                     discount := 0, total := 3998, currency := "usd" },
         payment := none, createdAt := 0, expiresAt := 100 })]
     (Except.ok
       { id := "cs_w", status := SessionStatus.pending, items := [],
         buyer := none,
         totals := { subtotal := 0, tax := 0, shipping := 0, discount := 0,
                     total := 0, currency := "usd" },
         payment := none, createdAt := 0, expiresAt := 100 })
     { id := "cs_w", status := SessionStatus.pending, items := [],
       buyer := none,
       totals := { subtotal := 0, tax := 0, shipping := 0, discount := 0,
                   total := 0, currency := "usd" },
       payment := none, createdAt := 0, expiresAt := 100 }
     (by decide) rfl⟩

/-- C4. A stored session is reachable by `get` at any time up to and
including `expiresAt`; once `expiresAt` lies strictly in the past, every
operation that takes its id fails with the session-not-found error and the
stored entry is evicted, and the periodic cleanup leaves no expired entry
behind. -/
theorem expired_session_nonexistent
    (products : List Product) (m : SessionMap) (os : List (String × Order))
    (now : Nat) (sid : String) (s : CheckoutSession)
    (hfound : assocGet m sid = some s) :
    (now ≤ s.expiresAt → SessionManager.get m now sid = (some s, m)) ∧
    (s.expiresAt < now →
      SessionManager.get m now sid = (none, assocDelete m sid) ∧
      assocGet (assocDelete m sid) sid = none ∧
      (∀ pid q, SessionManager.addItem products m now sid pid q
        = (.error .sessionNotFound, assocDelete m sid)) ∧
      (∀ pid, SessionManager.removeItem m now sid pid
        = (.error .sessionNotFound, assocDelete m sid)) ∧
      (∀ pid q, SessionManager.updateQuantity m now sid pid q
        = (.error .sessionNotFound, assocDelete m sid)) ∧
      (∀ b, SessionManager.setBuyer m now sid b
        = (.error .sessionNotFound, assocDelete m sid)) ∧
      (∀ stNew, SessionManager.updateStatus m now sid stNew
        = (.error .sessionNotFound, assocDelete m sid)) ∧
      (∀ gw oid hk, CommerceTools.completeCheckout ⟨m, os⟩ now sid gw oid hk
        = (.error .sessionNotFound, ⟨assocDelete m sid, os⟩)) ∧
      (∀ okk u le ssid,
        CommerceTools.createPaymentLink ⟨m, os⟩ now sid okk u le ssid
        = (.error .sessionNotFound, ⟨assocDelete m sid, os⟩)) ∧
      (∀ okk, CommerceTools.cancelCheckout ⟨m, os⟩ now sid okk
        = (.error .sessionNotFound, ⟨assocDelete m sid, os⟩))) ∧
    (∀ e ∈ SessionManager.cleanup m now, ¬ (e.2.expiresAt < now)) := by
  refine ⟨fun h => SessionManager.get_live hfound h, fun h => ?_, ?_⟩
  · have hg := SessionManager.get_expired hfound h
    refine ⟨hg, assocGet_assocDelete_self m sid, ?_, ?_, ?_, ?_, ?_, ?_, ?_, ?_⟩
    · intro pid q; simp [SessionManager.addItem, hg]
    · intro pid; simp [SessionManager.removeItem, hg]
    · intro pid q
      by_cases hq : q = 0
      · simp [SessionManager.updateQuantity, hq, SessionManager.removeItem, hg]
      · simp [SessionManager.updateQuantity, hq, hg]
    · intro b; simp [SessionManager.setBuyer, hg]
    · intro stNew; simp [SessionManager.updateStatus, hg]
    · intro gw oid hk; simp [CommerceTools.completeCheckout, hg]
    · intro okk u le ssid; simp [CommerceTools.createPaymentLink, hg]
    · intro okk; simp [CommerceTools.cancelCheckout, hg]
  · intro e he
    exact of_decide_eq_true (List.mem_filter.mp he).2

/-- Witness for C4: a concrete session that expired at time 10, observed at
time 11, is gone from the store and unreachable. -/
theorem expired_session_nonexistent_witness :
    assocGet
      ([("cs_e",
      { id := "cs_e", status := SessionStatus.ready,
        items := [{ productId := "p1", quantity := 1, price := 500,
                    currency := "usd", name := "P1" }],
        buyer := none,
        totals := { subtotal := 500, tax := 0, shipping := 0,
                    discount := 0, total := 500, currency := "usd" },
        payment := none, createdAt := 0, expiresAt := 10 })] : SessionMap)
      "cs_e" = some
      { id := "cs_e", status := SessionStatus.ready,
        items := [{ productId := "p1", quantity := 1, price := 500,
                    currency := "usd", name := "P1" }],
        buyer := none,
        totals := { subtotal := 500, tax := 0, shipping := 0,
                    discount := 0, total := 500, currency := "usd" },
        payment := none, createdAt := 0, expiresAt := 10 } ∧
    SessionManager.get
      ([("cs_e",
      { id := "cs_e", status := SessionStatus.ready,
        items := [{ productId := "p1", quantity := 1, price := 500,
                    currency := "usd", name := "P1" }],
        buyer := none,
        totals := { subtotal := 500, tax := 0, shipping := 0,
                    discount := 0, total := 500, currency := "usd" },
        payment := none, createdAt := 0, expiresAt := 10 })] : SessionMap)
      11 "cs_e" = (none,
        assocDelete
      ([("cs_e",
      { id := "cs_e", status := SessionStatus.ready,
        items := [{ productId := "p1", quantity := 1, price := 500,
                    currency := "usd", name := "P1" }],
        buyer := none,
        totals := { subtotal := 500, tax := 0, shipping := 0,
                    discount := 0, total := 500, currency := "usd" },
        payment := none, createdAt := 0, expiresAt := 10 })] : SessionMap)
      "cs_e") :=
  ⟨by decide,
   (((expired_session_nonexistent []
      ([("cs_e",
      { id := "cs_e", status := SessionStatus.ready,
        items := [{ productId := "p1", quantity := 1, price := 500,
                    currency := "usd", name := "P1" }],
        buyer := none,
        totals := { subtotal := 500, tax := 0, shipping := 0,
                    discount := 0, total := 500, currency := "usd" },
        payment := none, createdAt := 0, expiresAt := 10 })] : SessionMap)
      [] 11 "cs_e"
      { id := "cs_e", status := SessionStatus.ready,
        items := [{ productId := "p1", quantity := 1, price := 500,
                    currency := "usd", name := "P1" }],
        buyer := none,
        totals := { subtotal := 500, tax := 0, shipping := 0,
                    discount := 0, total := 500, currency := "usd" },
        payment := none, createdAt := 0, expiresAt := 10 }
      (by decide)).2.1) (by decide)).1⟩

/-- A session whose totals already equal the recomputed aggregate is left
unchanged by `recalculateTotals`. -/
theorem recalculateTotals_fixed {s : CheckoutSession}
    (h : s.totals = computeTotals s.items) : recalculateTotals s = s := by
  cases s
  simp_all [recalculateTotals]

/-- C8. `updateQuantity(sessionId, productId, 0)` is literally a call to
`removeItem(sessionId, productId)` in the source, so the two produce the
same result and store from every starting state; and on a live session
that does not contain the product, the shared path is a no-op (the
unchanged session is returned) rather than an error. -/
theorem updateQuantity_zero_is_removeItem
    (m : SessionMap) (now : Nat) (sid pid : String) (s : CheckoutSession)
    (hfound : assocGet m sid = some s) (hlive : now ≤ s.expiresAt)
    (habsent : ∀ it ∈ s.items, ¬ (it.productId = pid))
    (htotals : s.totals = computeTotals s.items)
    (hstatus : s.items = [] → s.status = .pending) :
    (∀ (m2 : SessionMap) (sid2 pid2 : String),
      SessionManager.updateQuantity m2 now sid2 pid2 0
        = SessionManager.removeItem m2 now sid2 pid2) ∧
    SessionManager.removeItem m now sid pid = (.ok s, assocSet m sid s) := by
  constructor
  · intro m2 sid2 pid2
    simp [SessionManager.updateQuantity]
  · have hfilter :
        List.filter (fun it => ¬ (it.productId == pid)) s.items = s.items :=
      List.filter_eq_self.mpr (fun a ha => by simpa using habsent a ha)
    have hfix :
        recalculateTotals
          { s with items :=
              List.filter (fun it => ¬ (it.productId == pid)) s.items } = s := by
      rw [hfilter]
      exact recalculateTotals_fixed htotals
    simp only [SessionManager.removeItem, SessionManager.get_live hfound hlive,
      hfix]
    by_cases hempty : s.items.length = 0
    · have hp : s.status = .pending := hstatus (List.length_eq_zero.mp hempty)
      have hsame : ({ s with status := SessionStatus.pending }
          : CheckoutSession) = s := by
        cases s
        simp_all
      simp [hempty, hsame]
    · simp [hempty]

/-- Witness for C8 on a live one-item session and an absent product id. -/
theorem updateQuantity_zero_is_removeItem_witness :
    SessionManager.removeItem
        ([("cs_z",
          { id := "cs_z", status := SessionStatus.ready,
            items := [{ productId := "p1", quantity := 2, price := 1999,
                        currency := "usd", name := "P1" }],
            buyer := none,
            totals := { subtotal := 3998, tax := 0, shipping := 0,
                        discount := 0, total := 3998, currency := "usd" },
            payment := none, createdAt := 0, expiresAt := 100 })] : SessionMap)
        1 "cs_z" "p2"
      = (.ok
          { id := "cs_z", status := SessionStatus.ready,
            items := [{ productId := "p1", quantity := 2, price := 1999,
                        currency := "usd", name := "P1" }],
            buyer := none,
            totals := { subtotal := 3998, tax := 0, shipping := 0,
                        discount := 0, total := 3998, currency := "usd" },
            payment := none, createdAt := 0, expiresAt := 100 },
         assocSet
          ([("cs_z",
            { id := "cs_z", status := SessionStatus.ready,
              items := [{ productId := "p1", quantity := 2, price := 1999,
                          currency := "usd", name := "P1" }],
              buyer := none,
              totals := { subtotal := 3998, tax := 0, shipping := 0,
                          discount := 0, total := 3998, currency := "usd" },
              payment := none, createdAt := 0, expiresAt := 100 })] : SessionMap)
          "cs_z"
          { id := "cs_z", status := SessionStatus.ready,
            items := [{ productId := "p1", quantity := 2, price := 1999,
                        currency := "usd", name := "P1" }],
            buyer := none,
            totals := { subtotal := 3998, tax := 0, shipping := 0,
                        discount := 0, total := 3998, currency := "usd" },
            payment := none, createdAt := 0, expiresAt := 100 }) :=
  (updateQuantity_zero_is_removeItem _ 1 "cs_z" "p2"
    { id := "cs_z", status := SessionStatus.ready,
      items := [{ productId := "p1", quantity := 2, price := 1999,
                  currency := "usd", name := "P1" }],
      buyer := none,
      totals := { subtotal := 3998, tax := 0, shipping := 0,
                  discount := 0, total := 3998, currency := "usd" },
      payment := none, createdAt := 0, expiresAt := 100 }
    (by decide) (by decide) (by decide) (by decide) (by decide)).2

/-- C5 counterexample. On a live session holding product `p1` with
quantity 2, `updateQuantity` with quantity −3 does not fail with an
invalid-quantity error: it succeeds, stores the negative quantity, and
recomputes (now negative) totals. -/
theorem negative_quantity_not_rejected :
    SessionManager.updateQuantity
        ([("cs_n",
          { id := "cs_n", status := SessionStatus.ready,
            items := [{ productId := "p1", quantity := 2, price := 1000,
                        currency := "usd", name := "P1" }],
            buyer := none,
            totals := { subtotal := 2000, tax := 0, shipping := 0,
                        discount := 0, total := 2000, currency := "usd" },
            payment := none, createdAt := 0, expiresAt := 100 })] : SessionMap)
        1 "cs_n" "p1" (-3)
      = (.ok
          { id := "cs_n", status := SessionStatus.ready,
            items := [{ productId := "p1", quantity := -3, price := 1000,
                        currency := "usd", name := "P1" }],
            buyer := none,
            totals := { subtotal := -3000, tax := 0, shipping := 0,
                        discount := 0, total := -3000, currency := "usd" },
            payment := none, createdAt := 0, expiresAt := 100 },
         [("cs_n",
          { id := "cs_n", status := SessionStatus.ready,
            items := [{ productId := "p1", quantity := -3, price := 1000,
                        currency := "usd", name := "P1" }],
            buyer := none,
            totals := { subtotal := -3000, tax := 0, shipping := 0,
                        discount := 0, total := -3000, currency := "usd" },
            payment := none, createdAt := 0, expiresAt := 100 })]) := by
  decide

/-- C5 amended. `updateQuantity` performs no sign check: for any negative
quantity, a live session whose cart contains the product has the item's
quantity overwritten with the negative value and its totals recomputed
(only `ItemNotInCart` and the session lookup guard the call). -/
theorem updateQuantity_accepts_negative
    (m : SessionMap) (now : Nat) (sid pid : String) (s : CheckoutSession)
    (q : Int) (hfound : assocGet m sid = some s) (hlive : now ≤ s.expiresAt)
    (hq : q < 0)
    (hin : s.items.any (fun it => it.productId == pid) = true) :
    SessionManager.updateQuantity m now sid pid q
      = (.ok (recalculateTotals
              { s with items := setFirstQuantity s.items pid q }),
         assocSet m sid
          (recalculateTotals
            { s with items := setFirstQuantity s.items pid q })) := by
  have hq0 : ¬ (q = 0) := by omega
  simp [SessionManager.updateQuantity, hq0,
    SessionManager.get_live hfound hlive, hin]

/-- Witness for the amended C5 at the counterexample's input. -/
theorem updateQuantity_accepts_negative_witness :
    SessionManager.updateQuantity
        ([("cs_n2",
          { id := "cs_n2", status := SessionStatus.ready,
            items := [{ productId := "p1", quantity := 2, price := 1000,
                        currency := "usd", name := "P1" }],
            buyer := none,
            totals := { subtotal := 2000, tax := 0, shipping := 0,
                        discount := 0, total := 2000, currency := "usd" },
            payment := none, createdAt := 0, expiresAt := 100 })] : SessionMap)
        1 "cs_n2" "p1" (-3)
      = (.ok (recalculateTotals
              { id := "cs_n2", status := SessionStatus.ready,
                items := [{ productId := "p1", quantity := -3, price := 1000,
                            currency := "usd", name := "P1" }],
                buyer := none,
                totals := { subtotal := 2000, tax := 0, shipping := 0,
                            discount := 0, total := 2000, currency := "usd" },
                payment := none, createdAt := 0, expiresAt := 100 }),
         assocSet
          ([("cs_n2",
            { id := "cs_n2", status := SessionStatus.ready,
              items := [{ productId := "p1", quantity := 2, price := 1000,
                          currency := "usd", name := "P1" }],
              buyer := none,
              totals := { subtotal := 2000, tax := 0, shipping := 0,
                          discount := 0, total := 2000, currency := "usd" },
              payment := none, createdAt := 0, expiresAt := 100 })] : SessionMap)
          "cs_n2"
          (recalculateTotals
            { id := "cs_n2", status := SessionStatus.ready,
              items := [{ productId := "p1", quantity := -3, price := 1000,
                          currency := "usd", name := "P1" }],
              buyer := none,
              totals := { subtotal := 2000, tax := 0, shipping := 0,
                          discount := 0, total := 2000, currency := "usd" },
              payment := none, createdAt := 0, expiresAt := 100 })) :=
  updateQuantity_accepts_negative _ 1 "cs_n2" "p1"
    { id := "cs_n2", status := SessionStatus.ready,
      items := [{ productId := "p1", quantity := 2, price := 1000,
                  currency := "usd", name := "P1" }],
      buyer := none,
      totals := { subtotal := 2000, tax := 0, shipping := 0,
                  discount := 0, total := 2000, currency := "usd" },
      payment := none, createdAt := 0, expiresAt := 100 }
    (-3) (by decide) (by decide) (by decide) (by decide)

/-- C6 counterexample. A live session already in the terminal status
`completed` is cancelled successfully: `cancelCheckout` returns without
error and overwrites the status with `cancelled`. -/
theorem cancel_terminal_session_succeeds :
    CommerceTools.cancelCheckout
        ⟨[("cs_c",
          { id := "cs_c", status := SessionStatus.completed,
            items := [{ productId := "p1", quantity := 1, price := 1500,
                        currency := "usd", name := "P1" }],
            buyer := some { email := "a@b.c", name := none },
            totals := { subtotal := 1500, tax := 0, shipping := 0,
                        discount := 0, total := 1500, currency := "usd" },
            payment := none, createdAt := 0, expiresAt := 100 })], []⟩
        1 "cs_c" true
      = (.ok (),
         ⟨[("cs_c",
           { id := "cs_c", status := SessionStatus.cancelled,
             items := [{ productId := "p1", quantity := 1, price := 1500,
                         currency := "usd", name := "P1" }],
             buyer := some { email := "a@b.c", name := none },
             totals := { subtotal := 1500, tax := 0, shipping := 0,
                         discount := 0, total := 1500, currency := "usd" },
             payment := none, createdAt := 0, expiresAt := 100 })], []⟩) := by
  decide

/-- C6 amended. `cancelCheckout` has no status guard: on every live
session — whatever its status, terminal ones included — it succeeds
(provided the Stripe cancel step does not throw) and unconditionally sets
the status to `cancelled`; only the session lookup can reject the call. -/
theorem cancelCheckout_ignores_status
    (m : SessionMap) (os : List (String × Order)) (now : Nat) (sid : String)
    (s : CheckoutSession)
    (hfound : assocGet m sid = some s) (hlive : now ≤ s.expiresAt) :
    CommerceTools.cancelCheckout ⟨m, os⟩ now sid true
      = (.ok (),
         ⟨assocSet m sid { s with status := SessionStatus.cancelled }, os⟩) := by
  simp [CommerceTools.cancelCheckout, SessionManager.get_live hfound hlive,
    SessionManager.updateStatus]

/-- Witness for the amended C6 on a live `failed` (terminal) session. -/
theorem cancelCheckout_ignores_status_witness :
    CommerceTools.cancelCheckout
        ⟨[("cs_c2",
          { id := "cs_c2", status := SessionStatus.failed, items := [],
            buyer := none,
            totals := { subtotal := 0, tax := 0, shipping := 0,
                        discount := 0, total := 0, currency := "usd" },
            payment := none, createdAt := 0, expiresAt := 100 })], []⟩
        1 "cs_c2" true
      = (.ok (),
         ⟨assocSet
            [("cs_c2",
              { id := "cs_c2", status := SessionStatus.failed, items := [],
                buyer := none,
                totals := { subtotal := 0, tax := 0, shipping := 0,
                            discount := 0, total := 0, currency := "usd" },
                payment := none, createdAt := 0, expiresAt := 100 })]
            "cs_c2"
            { id := "cs_c2", status := SessionStatus.cancelled, items := [],
              buyer := none,
              totals := { subtotal := 0, tax := 0, shipping := 0,
                          discount := 0, total := 0, currency := "usd" },
              payment := none, createdAt := 0, expiresAt := 100 }, []⟩) :=
  cancelCheckout_ignores_status _ [] 1 "cs_c2"
    { id := "cs_c2", status := SessionStatus.failed, items := [],
      buyer := none,
      totals := { subtotal := 0, tax := 0, shipping := 0,
                  discount := 0, total := 0, currency := "usd" },
      payment := none, createdAt := 0, expiresAt := 100 }
    (by decide) (by decide)

/-- Core run of `completeCheckout` on a live session with items, a buyer
email, a positive total and a gateway that confirms the intent as
`succeeded`: shared between several observations below. The status of the
starting session is arbitrary — the source never inspects it. -/
theorem completeCheckout_success_core
    (m : SessionMap) (os : List (String × Order)) (now : Nat) (sid : String)
    (s : CheckoutSession) (b : BuyerInfo) (piId oid : String) (hookOk : Bool)
    (hfound : assocGet m sid = some s) (hlive : now ≤ s.expiresAt)
    (hitems : s.items ≠ []) (hbuyer : s.buyer = some b)
    (hemail : ¬ (b.email = "")) (htotal : 0 < s.totals.total) :
    CommerceTools.completeCheckout ⟨m, os⟩ now sid
        (GatewayResult.intent piId "succeeded") oid hookOk
      = (if hookOk then
          (.ok { id := oid, sessionId := s.id, items := s.items, buyer := b,
                 totals := s.totals, paymentIntentId := piId,
                 paymentStatus := "succeeded", paidAt := now,
                 status := "pending", createdAt := now },
           ⟨assocSet m sid { s with status := SessionStatus.completed },
            assocSet os oid
              { id := oid, sessionId := s.id, items := s.items, buyer := b,
                totals := s.totals, paymentIntentId := piId,
                paymentStatus := "succeeded", paidAt := now,
                status := "pending", createdAt := now }⟩)
         else
          (.error .hookFailed,
           ⟨assocSet m sid { s with status := SessionStatus.failed },
            assocSet os oid
              { id := oid, sessionId := s.id, items := s.items, buyer := b,
                totals := s.totals, paymentIntentId := piId,
                paymentStatus := "succeeded", paidAt := now,
                status := "pending", createdAt := now }⟩)) := by
  obtain ⟨sId, sStatus, sItems, sBuyer, sTotals, sPay, sCreated, sExpires⟩ := s
  have hb : sBuyer = some b := hbuyer
  subst hb
  have hfound2 : assocGet m sid
      = some ⟨sId, sStatus, sItems, some b, sTotals, sPay, sCreated, sExpires⟩ :=
    hfound
  have hlive2 : now ≤ sExpires := hlive
  have hitems2 : sItems ≠ [] := hitems
  have htotal2 : 0 < sTotals.total := htotal
  have hlen : ¬ (sItems.length = 0) := by simpa using hitems2
  have htot2 : ¬ (sTotals.total ≤ 0) := by omega
  have hbm : buyerEmailMissing
      ⟨sId, sStatus, sItems, some b, sTotals, sPay, sCreated, sExpires⟩
      = false := by
    simp [buyerEmailMissing, hemail]
  have hg1 := SessionManager.get_live hfound2 hlive2
  have hg2 := @SessionManager.get_live
    (assocSet m sid
      ⟨sId, .processing, sItems, some b, sTotals, sPay, sCreated, sExpires⟩) sid
    ⟨sId, .processing, sItems, some b, sTotals, sPay, sCreated, sExpires⟩ now
    (assocGet_assocSet_self m sid
      ⟨sId, .processing, sItems, some b, sTotals, sPay, sCreated, sExpires⟩)
    hlive2
  have hg3 := @SessionManager.get_live
    (assocSet m sid
      ⟨sId, .completed, sItems, some b, sTotals, sPay, sCreated, sExpires⟩) sid
    ⟨sId, .completed, sItems, some b, sTotals, sPay, sCreated, sExpires⟩ now
    (assocGet_assocSet_self m sid
      ⟨sId, .completed, sItems, some b, sTotals, sPay, sCreated, sExpires⟩)
    hlive2
  cases hookOk
  · simp [CommerceTools.completeCheckout, SessionManager.updateStatus,
      hg1, hg2, hg3, hlen, hbm, htot2, assocSet_assocSet]
  · simp [CommerceTools.completeCheckout, SessionManager.updateStatus,
      hg1, hg2, hlen, hbm, htot2, assocSet_assocSet]

/-- C2 counterexample. A session that has already completed a checkout
(status `completed`, one order on record) accepts a second
`completeCheckout` call: the call succeeds and stores a second order, so a
duplicate completion attempt does not fail. -/
theorem second_completion_creates_second_order :
    CommerceTools.completeCheckout
        ⟨[("cs_d", { id := "cs_d", status := SessionStatus.completed, items := [{ productId := "p1", quantity := 1, price := 1500, currency := "usd", name := "P1" }], buyer := some { email := "a@b.c", name := none }, totals := { subtotal := 1500, tax := 0, shipping := 0, discount := 0, total := 1500, currency := "usd" }, payment := none, createdAt := 0, expiresAt := 100 })],
         [("ord_1", { id := "ord_1", sessionId := "cs_d", items := [{ productId := "p1", quantity := 1, price := 1500, currency := "usd", name := "P1" }], buyer := { email := "a@b.c", name := none }, totals := { subtotal := 1500, tax := 0, shipping := 0, discount := 0, total := 1500, currency := "usd" }, paymentIntentId := "pi_1", paymentStatus := "succeeded", paidAt := 3, status := "pending", createdAt := 3 })]⟩
        5 "cs_d" (GatewayResult.intent "pi_2" "succeeded") "ord_2" true
      = (.ok ({ id := "ord_2", sessionId := "cs_d", items := [{ productId := "p1", quantity := 1, price := 1500, currency := "usd", name := "P1" }], buyer := { email := "a@b.c", name := none }, totals := { subtotal := 1500, tax := 0, shipping := 0, discount := 0, total := 1500, currency := "usd" }, paymentIntentId := "pi_2", paymentStatus := "succeeded", paidAt := 5, status := "pending", createdAt := 5 }),
         ⟨[("cs_d", { id := "cs_d", status := SessionStatus.completed, items := [{ productId := "p1", quantity := 1, price := 1500, currency := "usd", name := "P1" }], buyer := some { email := "a@b.c", name := none }, totals := { subtotal := 1500, tax := 0, shipping := 0, discount := 0, total := 1500, currency := "usd" }, payment := none, createdAt := 0, expiresAt := 100 })],
          [("ord_1", { id := "ord_1", sessionId := "cs_d", items := [{ productId := "p1", quantity := 1, price := 1500, currency := "usd", name := "P1" }], buyer := { email := "a@b.c", name := none }, totals := { subtotal := 1500, tax := 0, shipping := 0, discount := 0, total := 1500, currency := "usd" }, paymentIntentId := "pi_1", paymentStatus := "succeeded", paidAt := 3, status := "pending", createdAt := 3 }),
           ("ord_2", { id := "ord_2", sessionId := "cs_d", items := [{ productId := "p1", quantity := 1, price := 1500, currency := "usd", name := "P1" }], buyer := { email := "a@b.c", name := none }, totals := { subtotal := 1500, tax := 0, shipping := 0, discount := 0, total := 1500, currency := "usd" }, paymentIntentId := "pi_2", paymentStatus := "succeeded", paidAt := 5, status := "pending", createdAt := 5 })]⟩) := by
  decide

/-- C2 amended. `completeCheckout` carries no duplicate-order guard: on any
live session with items, a buyer email and a positive total — its status,
including `completed` after an earlier successful checkout, is never
inspected — the call proceeds, re-runs the gateway charge, stores a fresh
order under the new order id and sets the session to `completed` again. -/
theorem completeCheckout_lacks_duplicate_guard
    (m : SessionMap) (os : List (String × Order)) (now : Nat) (sid : String)
    (s : CheckoutSession) (b : BuyerInfo) (piId oid : String)
    (hfound : assocGet m sid = some s) (hlive : now ≤ s.expiresAt)
    (hitems : s.items ≠ []) (hbuyer : s.buyer = some b)
    (hemail : ¬ (b.email = "")) (htotal : 0 < s.totals.total) :
    CommerceTools.completeCheckout ⟨m, os⟩ now sid
        (GatewayResult.intent piId "succeeded") oid true
      = (.ok ({ id := oid, sessionId := s.id, items := s.items, buyer := b, totals := s.totals, paymentIntentId := piId, paymentStatus := "succeeded", paidAt := now, status := "pending", createdAt := now }),
         ⟨assocSet m sid { s with status := SessionStatus.completed },
          assocSet os oid ({ id := oid, sessionId := s.id, items := s.items, buyer := b, totals := s.totals, paymentIntentId := piId, paymentStatus := "succeeded", paidAt := now, status := "pending", createdAt := now })⟩) := by
  simpa using completeCheckout_success_core m os now sid s b piId oid true
    hfound hlive hitems hbuyer hemail htotal

/-- Witness for the amended C2 on a live, already-completed session. -/
theorem completeCheckout_lacks_duplicate_guard_witness :
    CommerceTools.completeCheckout
        ⟨[("cs_d2", { id := "cs_d2", status := SessionStatus.completed, items := [{ productId := "p1", quantity := 1, price := 1500, currency := "usd", name := "P1" }], buyer := some { email := "a@b.c", name := none }, totals := { subtotal := 1500, tax := 0, shipping := 0, discount := 0, total := 1500, currency := "usd" }, payment := none, createdAt := 0, expiresAt := 100 })], []⟩
        5 "cs_d2" (GatewayResult.intent "pi_2" "succeeded") "ord_2" true
      = (.ok ({ id := "ord_2", sessionId := "cs_d2", items := [{ productId := "p1", quantity := 1, price := 1500, currency := "usd", name := "P1" }], buyer := { email := "a@b.c", name := none }, totals := { subtotal := 1500, tax := 0, shipping := 0, discount := 0, total := 1500, currency := "usd" }, paymentIntentId := "pi_2", paymentStatus := "succeeded", paidAt := 5, status := "pending", createdAt := 5 }),
         ⟨assocSet [("cs_d2", { id := "cs_d2", status := SessionStatus.completed, items := [{ productId := "p1", quantity := 1, price := 1500, currency := "usd", name := "P1" }], buyer := some { email := "a@b.c", name := none }, totals := { subtotal := 1500, tax := 0, shipping := 0, discount := 0, total := 1500, currency := "usd" }, payment := none, createdAt := 0, expiresAt := 100 })] "cs_d2"
            ({ id := "cs_d2", status := SessionStatus.completed, items := [{ productId := "p1", quantity := 1, price := 1500, currency := "usd", name := "P1" }], buyer := some { email := "a@b.c", name := none }, totals := { subtotal := 1500, tax := 0, shipping := 0, discount := 0, total := 1500, currency := "usd" }, payment := none, createdAt := 0, expiresAt := 100 }),
          assocSet [] "ord_2" ({ id := "ord_2", sessionId := "cs_d2", items := [{ productId := "p1", quantity := 1, price := 1500, currency := "usd", name := "P1" }], buyer := { email := "a@b.c", name := none }, totals := { subtotal := 1500, tax := 0, shipping := 0, discount := 0, total := 1500, currency := "usd" }, paymentIntentId := "pi_2", paymentStatus := "succeeded", paidAt := 5, status := "pending", createdAt := 5 })⟩) :=
  completeCheckout_lacks_duplicate_guard _ [] 5 "cs_d2"
    ({ id := "cs_d2", status := SessionStatus.completed, items := [{ productId := "p1", quantity := 1, price := 1500, currency := "usd", name := "P1" }], buyer := some { email := "a@b.c", name := none }, totals := { subtotal := 1500, tax := 0, shipping := 0, discount := 0, total := 1500, currency := "usd" }, payment := none, createdAt := 0, expiresAt := 100 })
    { email := "a@b.c", name := none } "pi_2" "ord_2"
    (by decide) (by decide) (by decide) (by decide) (by decide) (by decide)

/-- C3 counterexample. On a live session whose status is already
`processing`, both completion strategies go through: `completeCheckout`
charges again and produces an order, and `createPaymentLink` mints another
hosted Stripe session; neither fails with a conflict error. -/
theorem processing_session_not_conflict_rejected :
    CommerceTools.completeCheckout
        ⟨[("cs_p", { id := "cs_p", status := SessionStatus.processing, items := [{ productId := "p1", quantity := 1, price := 1500, currency := "usd", name := "P1" }], buyer := some { email := "a@b.c", name := none }, totals := { subtotal := 1500, tax := 0, shipping := 0, discount := 0, total := 1500, currency := "usd" }, payment := none, createdAt := 0, expiresAt := 100 })], []⟩
        5 "cs_p" (GatewayResult.intent "pi_9" "succeeded") "ord_9" true
      = (.ok ({ id := "ord_9", sessionId := "cs_p", items := [{ productId := "p1", quantity := 1, price := 1500, currency := "usd", name := "P1" }], buyer := { email := "a@b.c", name := none }, totals := { subtotal := 1500, tax := 0, shipping := 0, discount := 0, total := 1500, currency := "usd" }, paymentIntentId := "pi_9", paymentStatus := "succeeded", paidAt := 5, status := "pending", createdAt := 5 }),
         ⟨[("cs_p", { id := "cs_p", status := SessionStatus.completed, items := [{ productId := "p1", quantity := 1, price := 1500, currency := "usd", name := "P1" }], buyer := some { email := "a@b.c", name := none }, totals := { subtotal := 1500, tax := 0, shipping := 0, discount := 0, total := 1500, currency := "usd" }, payment := none, createdAt := 0, expiresAt := 100 })],
          [("ord_9", { id := "ord_9", sessionId := "cs_p", items := [{ productId := "p1", quantity := 1, price := 1500, currency := "usd", name := "P1" }], buyer := { email := "a@b.c", name := none }, totals := { subtotal := 1500, tax := 0, shipping := 0, discount := 0, total := 1500, currency := "usd" }, paymentIntentId := "pi_9", paymentStatus := "succeeded", paidAt := 5, status := "pending", createdAt := 5 })]⟩) ∧
    CommerceTools.createPaymentLink
        ⟨[("cs_p", { id := "cs_p", status := SessionStatus.processing, items := [{ productId := "p1", quantity := 1, price := 1500, currency := "usd", name := "P1" }], buyer := some { email := "a@b.c", name := none }, totals := { subtotal := 1500, tax := 0, shipping := 0, discount := 0, total := 1500, currency := "usd" }, payment := none, createdAt := 0, expiresAt := 100 })], []⟩
        5 "cs_p" true "https://pay.example" 99 "css_1"
      = (.ok ("https://pay.example", 99, "css_1"),
         ⟨[("cs_p", { id := "cs_p", status := SessionStatus.processing, items := [{ productId := "p1", quantity := 1, price := 1500, currency := "usd", name := "P1" }], buyer := some { email := "a@b.c", name := none }, totals := { subtotal := 1500, tax := 0, shipping := 0, discount := 0, total := 1500, currency := "usd" }, payment := none, createdAt := 0, expiresAt := 100 })], []⟩) := by
  constructor
  · decide
  · decide

/-- C3 amended. Neither completion strategy inspects the session status: a
live session already in `processing` (with items, buyer email and a
positive total) is accepted by both `completeCheckout` — which re-runs the
gateway charge and stores an order — and `createPaymentLink` — which mints
a fresh hosted payment session; no conflict error exists in the code. -/
theorem payment_retry_ignores_processing
    (m : SessionMap) (os : List (String × Order)) (now : Nat) (sid : String)
    (s : CheckoutSession) (b : BuyerInfo) (piId oid : String)
    (hfound : assocGet m sid = some s) (hlive : now ≤ s.expiresAt)
    (hitems : s.items ≠ []) (hbuyer : s.buyer = some b)
    (hemail : ¬ (b.email = "")) (htotal : 0 < s.totals.total)
    (hstatus : s.status = SessionStatus.processing)
    (url stripeSessionId : String) (linkExpiresAt : Nat) :
    CommerceTools.createPaymentLink ⟨m, os⟩ now sid true url linkExpiresAt
        stripeSessionId
      = (.ok (url, linkExpiresAt, stripeSessionId), ⟨m, os⟩) ∧
    CommerceTools.completeCheckout ⟨m, os⟩ now sid
        (GatewayResult.intent piId "succeeded") oid true
      = (.ok ({ id := oid, sessionId := s.id, items := s.items, buyer := b, totals := s.totals, paymentIntentId := piId, paymentStatus := "succeeded", paidAt := now, status := "pending", createdAt := now }),
         ⟨assocSet m sid { s with status := SessionStatus.completed },
          assocSet os oid ({ id := oid, sessionId := s.id, items := s.items, buyer := b, totals := s.totals, paymentIntentId := piId, paymentStatus := "succeeded", paidAt := now, status := "pending", createdAt := now })⟩) := by
  constructor
  · have hlen : ¬ (s.items.length = 0) := by simpa using hitems
    have hbm : buyerEmailMissing s = false := by
      simp [buyerEmailMissing, hbuyer, hemail]
    simp [CommerceTools.createPaymentLink,
      SessionManager.get_live hfound hlive, hlen, hbm]
  · simpa using completeCheckout_success_core m os now sid s b piId oid true
      hfound hlive hitems hbuyer hemail htotal

/-- Witness for the amended C3 on a live `processing` session. -/
theorem payment_retry_ignores_processing_witness :
    CommerceTools.createPaymentLink
        ⟨[("cs_p2", { id := "cs_p2", status := SessionStatus.processing, items := [{ productId := "p1", quantity := 1, price := 1500, currency := "usd", name := "P1" }], buyer := some { email := "a@b.c", name := none }, totals := { subtotal := 1500, tax := 0, shipping := 0, discount := 0, total := 1500, currency := "usd" }, payment := none, createdAt := 0, expiresAt := 100 })], []⟩
        5 "cs_p2" true "https://pay.example" 99 "css_2"
      = (.ok ("https://pay.example", 99, "css_2"),
         ⟨[("cs_p2", { id := "cs_p2", status := SessionStatus.processing, items := [{ productId := "p1", quantity := 1, price := 1500, currency := "usd", name := "P1" }], buyer := some { email := "a@b.c", name := none }, totals := { subtotal := 1500, tax := 0, shipping := 0, discount := 0, total := 1500, currency := "usd" }, payment := none, createdAt := 0, expiresAt := 100 })], []⟩) ∧
    CommerceTools.completeCheckout
        ⟨[("cs_p2", { id := "cs_p2", status := SessionStatus.processing, items := [{ productId := "p1", quantity := 1, price := 1500, currency := "usd", name := "P1" }], buyer := some { email := "a@b.c", name := none }, totals := { subtotal := 1500, tax := 0, shipping := 0, discount := 0, total := 1500, currency := "usd" }, payment := none, createdAt := 0, expiresAt := 100 })], []⟩
        5 "cs_p2" (GatewayResult.intent "pi_9" "succeeded") "ord_9" true
      = (.ok ({ id := "ord_9", sessionId := "cs_p2", items := [{ productId := "p1", quantity := 1, price := 1500, currency := "usd", name := "P1" }], buyer := { email := "a@b.c", name := none }, totals := { subtotal := 1500, tax := 0, shipping := 0, discount := 0, total := 1500, currency := "usd" }, paymentIntentId := "pi_9", paymentStatus := "succeeded", paidAt := 5, status := "pending", createdAt := 5 }),
         ⟨assocSet [("cs_p2", { id := "cs_p2", status := SessionStatus.processing, items := [{ productId := "p1", quantity := 1, price := 1500, currency := "usd", name := "P1" }], buyer := some { email := "a@b.c", name := none }, totals := { subtotal := 1500, tax := 0, shipping := 0, discount := 0, total := 1500, currency := "usd" }, payment := none, createdAt := 0, expiresAt := 100 })] "cs_p2"
            ({ id := "cs_p2", status := SessionStatus.completed, items := [{ productId := "p1", quantity := 1, price := 1500, currency := "usd", name := "P1" }], buyer := some { email := "a@b.c", name := none }, totals := { subtotal := 1500, tax := 0, shipping := 0, discount := 0, total := 1500, currency := "usd" }, payment := none, createdAt := 0, expiresAt := 100 }),
          assocSet [] "ord_9" ({ id := "ord_9", sessionId := "cs_p2", items := [{ productId := "p1", quantity := 1, price := 1500, currency := "usd", name := "P1" }], buyer := { email := "a@b.c", name := none }, totals := { subtotal := 1500, tax := 0, shipping := 0, discount := 0, total := 1500, currency := "usd" }, paymentIntentId := "pi_9", paymentStatus := "succeeded", paidAt := 5, status := "pending", createdAt := 5 })⟩) :=
  payment_retry_ignores_processing _ [] 5 "cs_p2"
    ({ id := "cs_p2", status := SessionStatus.processing, items := [{ productId := "p1", quantity := 1, price := 1500, currency := "usd", name := "P1" }], buyer := some { email := "a@b.c", name := none }, totals := { subtotal := 1500, tax := 0, shipping := 0, discount := 0, total := 1500, currency := "usd" }, payment := none, createdAt := 0, expiresAt := 100 })
    { email := "a@b.c", name := none } "pi_9" "ord_9"
    (by decide) (by decide) (by decide) (by decide) (by decide) (by decide)
    (by decide) "https://pay.example" "css_2" 99

/-- C9 counterexample. With a succeeding gateway but a throwing
`onPurchase` hook, the order is stored, yet the session ends `failed` (not
`completed`) and the hook error is rethrown to the caller as the result of
the whole call — the failure is not reported as non-fatal. -/
theorem hook_failure_fails_session :
    CommerceTools.completeCheckout
        ⟨[("cs_h", { id := "cs_h", status := SessionStatus.ready, items := [{ productId := "p1", quantity := 1, price := 1500, currency := "usd", name := "P1" }], buyer := some { email := "a@b.c", name := none }, totals := { subtotal := 1500, tax := 0, shipping := 0, discount := 0, total := 1500, currency := "usd" }, payment := none, createdAt := 0, expiresAt := 100 })], []⟩
        5 "cs_h" (GatewayResult.intent "pi_h" "succeeded") "ord_h" false
      = (.error .hookFailed,
         ⟨[("cs_h", { id := "cs_h", status := SessionStatus.failed, items := [{ productId := "p1", quantity := 1, price := 1500, currency := "usd", name := "P1" }], buyer := some { email := "a@b.c", name := none }, totals := { subtotal := 1500, tax := 0, shipping := 0, discount := 0, total := 1500, currency := "usd" }, payment := none, createdAt := 0, expiresAt := 100 })],
          [("ord_h", { id := "ord_h", sessionId := "cs_h", items := [{ productId := "p1", quantity := 1, price := 1500, currency := "usd", name := "P1" }], buyer := { email := "a@b.c", name := none }, totals := { subtotal := 1500, tax := 0, shipping := 0, discount := 0, total := 1500, currency := "usd" }, paymentIntentId := "pi_h", paymentStatus := "succeeded", paidAt := 5, status := "pending", createdAt := 5 })]⟩) := by
  decide

/-- C9 amended. When the token-strategy payment succeeds the order is
built, stored and the session set to `completed`, with the order returned
and the hook invoked; but when the `onPurchase` hook then throws, the
order record survives (it is not rolled back) while the catch-all handler
sets the session status to `failed` and rethrows the hook error to the
caller instead of reporting it as non-fatal. -/
theorem completeCheckout_hook_failure_semantics
    (m : SessionMap) (os : List (String × Order)) (now : Nat) (sid : String)
    (s : CheckoutSession) (b : BuyerInfo) (piId oid : String)
    (hfound : assocGet m sid = some s) (hlive : now ≤ s.expiresAt)
    (hitems : s.items ≠ []) (hbuyer : s.buyer = some b)
    (hemail : ¬ (b.email = "")) (htotal : 0 < s.totals.total) :
    (CommerceTools.completeCheckout ⟨m, os⟩ now sid
        (GatewayResult.intent piId "succeeded") oid true
      = (.ok ({ id := oid, sessionId := s.id, items := s.items, buyer := b, totals := s.totals, paymentIntentId := piId, paymentStatus := "succeeded", paidAt := now, status := "pending", createdAt := now }),
         ⟨assocSet m sid { s with status := SessionStatus.completed },
          assocSet os oid ({ id := oid, sessionId := s.id, items := s.items, buyer := b, totals := s.totals, paymentIntentId := piId, paymentStatus := "succeeded", paidAt := now, status := "pending", createdAt := now })⟩)) ∧
    (CommerceTools.completeCheckout ⟨m, os⟩ now sid
        (GatewayResult.intent piId "succeeded") oid false
      = (.error .hookFailed,
         ⟨assocSet m sid { s with status := SessionStatus.failed },
          assocSet os oid ({ id := oid, sessionId := s.id, items := s.items, buyer := b, totals := s.totals, paymentIntentId := piId, paymentStatus := "succeeded", paidAt := now, status := "pending", createdAt := now })⟩)) := by
  constructor
  · simpa using completeCheckout_success_core m os now sid s b piId oid true
      hfound hlive hitems hbuyer hemail htotal
  · simpa using completeCheckout_success_core m os now sid s b piId oid false
      hfound hlive hitems hbuyer hemail htotal

/-- Witness for the amended C9: the hook-failure half at a concrete input. -/
theorem completeCheckout_hook_failure_semantics_witness :
    CommerceTools.completeCheckout
        ⟨[("cs_h2", { id := "cs_h2", status := SessionStatus.ready, items := [{ productId := "p1", quantity := 1, price := 1500, currency := "usd", name := "P1" }], buyer := some { email := "a@b.c", name := none }, totals := { subtotal := 1500, tax := 0, shipping := 0, discount := 0, total := 1500, currency := "usd" }, payment := none, createdAt := 0, expiresAt := 100 })], []⟩
        5 "cs_h2" (GatewayResult.intent "pi_h" "succeeded") "ord_h" false
      = (.error .hookFailed,
         ⟨assocSet [("cs_h2", { id := "cs_h2", status := SessionStatus.ready, items := [{ productId := "p1", quantity := 1, price := 1500, currency := "usd", name := "P1" }], buyer := some { email := "a@b.c", name := none }, totals := { subtotal := 1500, tax := 0, shipping := 0, discount := 0, total := 1500, currency := "usd" }, payment := none, createdAt := 0, expiresAt := 100 })] "cs_h2"
            ({ id := "cs_h2", status := SessionStatus.failed, items := [{ productId := "p1", quantity := 1, price := 1500, currency := "usd", name := "P1" }], buyer := some { email := "a@b.c", name := none }, totals := { subtotal := 1500, tax := 0, shipping := 0, discount := 0, total := 1500, currency := "usd" }, payment := none, createdAt := 0, expiresAt := 100 }),
          assocSet [] "ord_h" ({ id := "ord_h", sessionId := "cs_h2", items := [{ productId := "p1", quantity := 1, price := 1500, currency := "usd", name := "P1" }], buyer := { email := "a@b.c", name := none }, totals := { subtotal := 1500, tax := 0, shipping := 0, discount := 0, total := 1500, currency := "usd" }, paymentIntentId := "pi_h", paymentStatus := "succeeded", paidAt := 5, status := "pending", createdAt := 5 })⟩) :=
  (completeCheckout_hook_failure_semantics _ [] 5 "cs_h2"
    ({ id := "cs_h2", status := SessionStatus.ready, items := [{ productId := "p1", quantity := 1, price := 1500, currency := "usd", name := "P1" }], buyer := some { email := "a@b.c", name := none }, totals := { subtotal := 1500, tax := 0, shipping := 0, discount := 0, total := 1500, currency := "usd" }, payment := none, createdAt := 0, expiresAt := 100 })
    { email := "a@b.c", name := none } "pi_h" "ord_h"
    (by decide) (by decide) (by decide) (by decide) (by decide) (by decide)).2

/-- A product returned by the catalog lookup for `pid` has id `pid`. -/
theorem catalogLookup_id {products : List Product} {pid : String}
    {p : Product} (h : catalogLookup products pid = some p) : p.id = pid := by
  have hx : p ∈ (products.filter (fun x => x.id == pid)).getLast? := h
  rcases List.mem_getLast?_eq_getLast hx with ⟨hne, heq⟩
  have hmem : p ∈ products.filter (fun x => x.id == pid) :=
    heq ▸ List.getLast_mem hne
  have := (List.mem_filter.mp hmem).2
  simpa using this

/-- `addItem` on a live session whose cart does not contain the product
appends a snapshot of the catalog product; only items and (possibly)
status change. -/
theorem addItem_fresh (products : List Product) (m : SessionMap) (now : Nat)
    (sid pid : String) (s : CheckoutSession) (p : Product) (q : Int)
    (hfound : assocGet m sid = some s) (hlive : now ≤ s.expiresAt)
    (hp : catalogLookup products pid = some p) (hq : 0 < q)
    (hnotin : ∀ it ∈ s.items, ¬ (it.productId = pid)) :
    ∃ s1, SessionManager.addItem products m now sid pid q
        = (.ok s1, assocSet m sid s1) ∧
      s1.items = s.items ++
        [{ productId := p.id, quantity := q, price := p.price,
           currency := p.currency, name := p.name }] ∧
      s1.expiresAt = s.expiresAt := by
  have hqf : ¬ (q ≤ 0) := by omega
  have hg := SessionManager.get_live hfound hlive
  have hany : s.items.any (fun it => it.productId == pid) = false := by
    rw [List.any_eq_false]
    intro it hit
    simpa using hnotin it hit
  simp only [SessionManager.addItem, hg, hp, hqf, if_false, hany,
    Bool.false_eq_true, recalculateTotals]
  refine ⟨_, rfl, ?_, ?_⟩
  · split_ifs <;> rfl
  · split_ifs <;> rfl

/-- `addItem` on a live session whose cart already contains the product
merges by bumping the first matching entry's quantity. -/
theorem addItem_merge (products : List Product) (m : SessionMap) (now : Nat)
    (sid pid : String) (s : CheckoutSession) (p : Product) (q : Int)
    (hfound : assocGet m sid = some s) (hlive : now ≤ s.expiresAt)
    (hp : catalogLookup products pid = some p) (hq : 0 < q)
    (hin : s.items.any (fun it => it.productId == pid) = true) :
    ∃ s1, SessionManager.addItem products m now sid pid q
        = (.ok s1, assocSet m sid s1) ∧
      s1.items = bumpFirstQuantity s.items pid q ∧
      s1.expiresAt = s.expiresAt := by
  have hqf : ¬ (q ≤ 0) := by omega
  have hg := SessionManager.get_live hfound hlive
  simp only [SessionManager.addItem, hg, hp, hqf, if_false, hin,
    recalculateTotals]
  refine ⟨_, rfl, ?_, ?_⟩
  · split_ifs <;> rfl
  · split_ifs <;> rfl

/-- Bumping the quantity of `pid` in a list that holds it only in its last
element rewrites just that element. -/
theorem bumpFirstQuantity_append (items : List CartItem) (it0 : CartItem)
    (pid : String) (q : Int) (h : ∀ it ∈ items, ¬ (it.productId = pid))
    (h0 : it0.productId = pid) :
    bumpFirstQuantity (items ++ [it0]) pid q
      = items ++ [{ it0 with quantity := it0.quantity + q }] := by
  induction items with
  | nil => simp [bumpFirstQuantity, h0]
  | cons a rest ih =>
    have ha : ¬ (a.productId = pid) := h a (by simp)
    simp only [List.cons_append, bumpFirstQuantity]
    rw [if_neg (by simpa using ha)]
    exact congrArg (a :: ·) (ih (fun it hit => h it (by simp [hit])))

/-- Filtering for `pid` in a list that holds it only in its last element
returns exactly that element. -/
theorem filter_pid_append (items : List CartItem) (x : CartItem)
    (pid : String) (h : ∀ it ∈ items, ¬ (it.productId = pid))
    (hx : x.productId = pid) :
    (items ++ [x]).filter (fun it => it.productId == pid) = [x] := by
  rw [List.filter_append]
  have h1 : items.filter (fun it => it.productId == pid) = [] := by
    rw [List.filter_eq_nil_iff]
    intro it hit
    simpa using h it hit
  simp [h1, hx]

/-- C7. Adding the same product twice to a live session (which does not
already hold it) leaves a single cart entry for that product: the second
add bumps the quantity to the sum of the two adds, while price, currency
and name stay those snapshotted from the catalog at the first add — even
when the catalog offers a different price at the second add. -/
theorem addItem_merges_locks_price
    (products1 products2 : List Product) (m : SessionMap) (now : Nat)
    (sid pid : String) (s : CheckoutSession) (p1 p2 : Product) (q1 q2 : Int)
    (hfound : assocGet m sid = some s) (hlive : now ≤ s.expiresAt)
    (hnotin : ∀ it ∈ s.items, ¬ (it.productId = pid))
    (hp1 : catalogLookup products1 pid = some p1)
    (hp2 : catalogLookup products2 pid = some p2)
    (hq1 : 0 < q1) (hq2 : 0 < q2) :
    ∃ s1 s2,
      SessionManager.addItem products1 m now sid pid q1
        = (.ok s1, assocSet m sid s1) ∧
      SessionManager.addItem products2 (assocSet m sid s1) now sid pid q2
        = (.ok s2, assocSet (assocSet m sid s1) sid s2) ∧
      s2.items.filter (fun it => it.productId == pid)
        = [{ productId := p1.id, quantity := q1 + q2, price := p1.price,
             currency := p1.currency, name := p1.name }] := by
  obtain ⟨s1, heq1, hitems1, hexp1⟩ :=
    addItem_fresh products1 m now sid pid s p1 q1 hfound hlive hp1 hq1 hnotin
  have hfound2 : assocGet (assocSet m sid s1) sid = some s1 :=
    assocGet_assocSet_self m sid s1
  have hlive2 : now ≤ s1.expiresAt := by rw [hexp1]; exact hlive
  have hid1 : p1.id = pid := catalogLookup_id hp1
  have hin2 : s1.items.any (fun it => it.productId == pid) = true := by
    rw [hitems1]
    simp [hid1]
  obtain ⟨s2, heq2, hitems2, hexp2⟩ :=
    addItem_merge products2 (assocSet m sid s1) now sid pid s1 p2 q2 hfound2
      hlive2 hp2 hq2 hin2
  refine ⟨s1, s2, heq1, heq2, ?_⟩
  rw [hitems2, hitems1]
  rw [bumpFirstQuantity_append s.items _ pid q2 hnotin hid1]
  rw [filter_pid_append s.items _ pid hnotin hid1]

/-- Witness for C7: a catalog selling `p1` at 1999 at the first add and at
2999 at the second; the merged entry keeps 1999 and quantity 2 + 3. -/
theorem addItem_merges_locks_price_witness :
    (∀ it ∈ ([] : List CartItem), ¬ (it.productId = "p1")) ∧
    (∃ s1 s2,
      SessionManager.addItem
          [{ id := "p1", name := "P1", price := 1999, currency := "usd" }]
          [("cs_m",
            { id := "cs_m", status := SessionStatus.pending, items := [],
              buyer := none,
              totals := { subtotal := 0, tax := 0, shipping := 0,
                          discount := 0, total := 0, currency := "usd" },
              payment := none, createdAt := 0, expiresAt := 100 })]
          1 "cs_m" "p1" 2
        = (.ok s1,
           assocSet
            [("cs_m",
              { id := "cs_m", status := SessionStatus.pending, items := [],
                buyer := none,
                totals := { subtotal := 0, tax := 0, shipping := 0,
                            discount := 0, total := 0, currency := "usd" },
                payment := none, createdAt := 0, expiresAt := 100 })]
            "cs_m" s1) ∧
      SessionManager.addItem
          [{ id := "p1", name := "P1", price := 2999, currency := "usd" }]
          (assocSet
            [("cs_m",
              { id := "cs_m", status := SessionStatus.pending, items := [],
                buyer := none,
                totals := { subtotal := 0, tax := 0, shipping := 0,
                            discount := 0, total := 0, currency := "usd" },
                payment := none, createdAt := 0, expiresAt := 100 })]
            "cs_m" s1)
          1 "cs_m" "p1" 3
        = (.ok s2,
           assocSet
            (assocSet
              [("cs_m",
                { id := "cs_m", status := SessionStatus.pending, items := [],
                  buyer := none,
                  totals := { subtotal := 0, tax := 0, shipping := 0,
                              discount := 0, total := 0, currency := "usd" },
                  payment := none, createdAt := 0, expiresAt := 100 })]
              "cs_m" s1)
            "cs_m" s2) ∧
      s2.items.filter (fun it => it.productId == "p1")
        = [{ productId := "p1", quantity := 2 + 3, price := 1999,
             currency := "usd", name := "P1" }]) :=
  ⟨by decide,
   addItem_merges_locks_price
     [{ id := "p1", name := "P1", price := 1999, currency := "usd" }]
     [{ id := "p1", name := "P1", price := 2999, currency := "usd" }]
     [("cs_m",
       { id := "cs_m", status := SessionStatus.pending, items := [],
         buyer := none,
         totals := { subtotal := 0, tax := 0, shipping := 0,
                     discount := 0, total := 0, currency := "usd" },
         payment := none, createdAt := 0, expiresAt := 100 })]
     1 "cs_m" "p1"
     { id := "cs_m", status := SessionStatus.pending, items := [],
       buyer := none,
       totals := { subtotal := 0, tax := 0, shipping := 0,
                   discount := 0, total := 0, currency := "usd" },
       payment := none, createdAt := 0, expiresAt := 100 }
     { id := "p1", name := "P1", price := 1999, currency := "usd" }
     { id := "p1", name := "P1", price := 2999, currency := "usd" }
     2 3 (by decide) (by decide) (by decide) (by decide) (by decide)
     (by decide) (by decide)⟩

/-- C10. When `addToCart`/`setBuyer` receive no session id they silently
create a fresh `pending` session with an empty cart (its generated id
arriving as `freshId`) and apply the operation to it; with no session id
they can never fail with the session-not-found error; an explicitly
supplied unknown — or expired — non-empty id still fails with it. -/
theorem auto_session_on_missing_id
    (cfg : CommerceConfig) (m : SessionMap) (now : Nat)
    (freshId pid : String) (q : Int) (p : Product) (b : BuyerInfo)
    (hp : catalogLookup cfg.products pid = some p) (hq : 0 < q) :
    CommerceTools.addToCart cfg m now none freshId pid q
      = (.ok
          { id := freshId, status := SessionStatus.ready,
            items := [{ productId := p.id, quantity := q, price := p.price,
                        currency := p.currency, name := p.name }],
            buyer := none,
            totals := computeTotals
              [{ productId := p.id, quantity := q, price := p.price,
                 currency := p.currency, name := p.name }],
            payment := none, createdAt := now, expiresAt := now + cfg.ttl },
         assocSet
          (assocSet m freshId
            { id := freshId, status := SessionStatus.pending, items := [],
              buyer := none,
              totals := { subtotal := 0, tax := 0, shipping := 0,
                          discount := 0, total := 0, currency := "usd" },
              payment := none, createdAt := now, expiresAt := now + cfg.ttl })
          freshId
          { id := freshId, status := SessionStatus.ready,
            items := [{ productId := p.id, quantity := q, price := p.price,
                        currency := p.currency, name := p.name }],
            buyer := none,
            totals := computeTotals
              [{ productId := p.id, quantity := q, price := p.price,
                 currency := p.currency, name := p.name }],
            payment := none, createdAt := now, expiresAt := now + cfg.ttl }) ∧
    CommerceTools.setBuyer cfg m now none freshId b
      = (.ok
          { id := freshId, status := SessionStatus.pending, items := [],
            buyer := some b, totals := computeTotals [],
            payment := none, createdAt := now, expiresAt := now + cfg.ttl },
         assocSet
          (assocSet m freshId
            { id := freshId, status := SessionStatus.pending, items := [],
              buyer := none,
              totals := { subtotal := 0, tax := 0, shipping := 0,
                          discount := 0, total := 0, currency := "usd" },
              payment := none, createdAt := now, expiresAt := now + cfg.ttl })
          freshId
          { id := freshId, status := SessionStatus.pending, items := [],
            buyer := some b, totals := computeTotals [],
            payment := none, createdAt := now, expiresAt := now + cfg.ttl }) ∧
    (∀ pid2 q2, (CommerceTools.addToCart cfg m now none freshId pid2 q2).1
      ≠ .error .sessionNotFound) ∧
    (∀ sid2, ¬ (sid2 = "") → assocGet m sid2 = none →
      CommerceTools.addToCart cfg m now (some sid2) freshId pid q
        = (.error .sessionNotFound, m) ∧
      CommerceTools.setBuyer cfg m now (some sid2) freshId b
        = (.error .sessionNotFound, m)) ∧
    (∀ sid2 s2, ¬ (sid2 = "") → assocGet m sid2 = some s2 →
      s2.expiresAt < now →
      CommerceTools.addToCart cfg m now (some sid2) freshId pid q
        = (.error .sessionNotFound, assocDelete m sid2) ∧
      CommerceTools.setBuyer cfg m now (some sid2) freshId b
        = (.error .sessionNotFound, assocDelete m sid2)) := by
  have hgf := @SessionManager.get_live
    (assocSet m freshId
      { id := freshId, status := SessionStatus.pending, items := [],
        buyer := none,
        totals := { subtotal := 0, tax := 0, shipping := 0,
                    discount := 0, total := 0, currency := "usd" },
        payment := none, createdAt := now, expiresAt := now + cfg.ttl })
    freshId
    { id := freshId, status := SessionStatus.pending, items := [],
      buyer := none,
      totals := { subtotal := 0, tax := 0, shipping := 0,
                  discount := 0, total := 0, currency := "usd" },
      payment := none, createdAt := now, expiresAt := now + cfg.ttl }
    now
    (assocGet_assocSet_self m freshId
      { id := freshId, status := SessionStatus.pending, items := [],
        buyer := none,
        totals := { subtotal := 0, tax := 0, shipping := 0,
                    discount := 0, total := 0, currency := "usd" },
        payment := none, createdAt := now, expiresAt := now + cfg.ttl })
    (Nat.le_add_right now cfg.ttl)
  have hqf : ¬ (q ≤ 0) := by omega
  refine ⟨?_, ?_, ?_, ?_, ?_⟩
  · simp [CommerceTools.addToCart, SessionManager.create,
      SessionManager.addItem, hgf, hp, hqf, recalculateTotals]
  · simp [CommerceTools.setBuyer, SessionManager.create,
      SessionManager.setBuyer, hgf, recalculateTotals]
  · intro pid2 q2
    rcases hc : catalogLookup cfg.products pid2 with _ | p2
    · simp [CommerceTools.addToCart, SessionManager.create,
        SessionManager.addItem, hgf, hc]
    · by_cases hq2 : q2 ≤ 0
      · simp [CommerceTools.addToCart, SessionManager.create,
          SessionManager.addItem, hgf, hc, hq2]
      · simp [CommerceTools.addToCart, SessionManager.create,
          SessionManager.addItem, hgf, hc, hq2]
  · intro sid2 hne hnone
    constructor
    · simp [CommerceTools.addToCart, SessionManager.addItem,
        SessionManager.get, hnone, hne]
    · simp [CommerceTools.setBuyer, SessionManager.setBuyer,
        SessionManager.get, hnone, hne]
  · intro sid2 s2 hne hfound2 hexp
    constructor
    · simp [CommerceTools.addToCart, SessionManager.addItem,
        SessionManager.get_expired hfound2 hexp, hne]
    · simp [CommerceTools.setBuyer, SessionManager.setBuyer,
        SessionManager.get_expired hfound2 hexp, hne]

/-- Witness for C10: with no session id, `addToCart` and `setBuyer` build
and operate on a fresh session. -/
theorem auto_session_on_missing_id_witness :
    CommerceTools.addToCart
        ({ products := [{ id := "p1", name := "P1", price := 1999, currency := "usd" }], ttl := 60 } : CommerceConfig) [] 5 none "cs_f" "p1" 2
      = (.ok ({ id := "cs_f", status := SessionStatus.ready, items := [{ productId := "p1", quantity := 2, price := 1999, currency := "usd", name := "P1" }], buyer := none, totals := computeTotals [{ productId := "p1", quantity := 2, price := 1999, currency := "usd", name := "P1" }], payment := none, createdAt := 5, expiresAt := 5 + 60 }),
         assocSet (assocSet [] "cs_f" ({ id := "cs_f", status := SessionStatus.pending, items := [], buyer := none, totals := { subtotal := 0, tax := 0, shipping := 0, discount := 0, total := 0, currency := "usd" }, payment := none, createdAt := 5, expiresAt := 5 + 60 })) "cs_f" ({ id := "cs_f", status := SessionStatus.ready, items := [{ productId := "p1", quantity := 2, price := 1999, currency := "usd", name := "P1" }], buyer := none, totals := computeTotals [{ productId := "p1", quantity := 2, price := 1999, currency := "usd", name := "P1" }], payment := none, createdAt := 5, expiresAt := 5 + 60 })) ∧
    CommerceTools.setBuyer
        ({ products := [{ id := "p1", name := "P1", price := 1999, currency := "usd" }], ttl := 60 } : CommerceConfig) [] 5 none "cs_f"
        { email := "a@b.c", name := none }
      = (.ok ({ id := "cs_f", status := SessionStatus.pending, items := [], buyer := some { email := "a@b.c", name := none }, totals := computeTotals [], payment := none, createdAt := 5, expiresAt := 5 + 60 }),
         assocSet (assocSet [] "cs_f" ({ id := "cs_f", status := SessionStatus.pending, items := [], buyer := none, totals := { subtotal := 0, tax := 0, shipping := 0, discount := 0, total := 0, currency := "usd" }, payment := none, createdAt := 5, expiresAt := 5 + 60 })) "cs_f" ({ id := "cs_f", status := SessionStatus.pending, items := [], buyer := some { email := "a@b.c", name := none }, totals := computeTotals [], payment := none, createdAt := 5, expiresAt := 5 + 60 })) :=
  ⟨(auto_session_on_missing_id { products := [{ id := "p1", name := "P1", price := 1999, currency := "usd" }], ttl := 60 } [] 5 "cs_f" "p1" 2
      { id := "p1", name := "P1", price := 1999, currency := "usd" }
      { email := "a@b.c", name := none } (by decide) (by decide)).1,
   (auto_session_on_missing_id { products := [{ id := "p1", name := "P1", price := 1999, currency := "usd" }], ttl := 60 } [] 5 "cs_f" "p1" 2
      { id := "p1", name := "P1", price := 1999, currency := "usd" }
      { email := "a@b.c", name := none } (by decide) (by decide)).2.1⟩
